import Mathlib

/-!
Shallow embedding of the oracle client core `src/core/NGNUSDOracle.js` of the
cngn-price-oracle repository.

Modelling conventions, applied throughout:
* JS `Number` arithmetic on raw readings is modelled with exact rationals,
  together with an explicit `inf` value for the result of the JS division
  `1 / 0`; `toFixed(n)` is modelled as round-half-up decimal rendering.
* An `async` JS function that can reject is modelled as returning
  `Except JsError _`; a function that can also resolve with `undefined` is
  modelled as returning `Except JsError (Option _)`, `.ok none` standing for
  a resolution with `undefined`.
* The event-loop schedule (timers, sequential awaits under the `p-limit(1)`
  gate) is modelled by explicit lists of per-call outcomes, in program order.
* Wall-clock fields of the source records (`timestamp`, `updatedAtFormatted`)
  are omitted from the embedded records: they are fresh date strings with no
  bearing on any claim.
-/

/-- Classification data of a JS error as inspected by `executeWithRetry`:
`rateLimitMsg` models `error.info?.error?.message?.includes('rate limit')`,
`code32016` models `error.code === -32016`, `filterMsg` models
`error.error?.message?.includes('filter not found')`; `tag` gives errors an
identity so that distinct errors can be told apart. -/
structure JsError where
  rateLimitMsg : Bool
  code32016 : Bool
  filterMsg : Bool
  tag : ℕ
deriving DecidableEq

/-- The test `error.info?.error?.message?.includes('rate limit') ||
error.code === -32016` of the retry loop. -/
def isRateLimit (e : JsError) : Bool := e.rateLimitMsg || e.code32016

/-- The test `error.error?.message?.includes('filter not found')` of the retry loop. -/
def isFilterError (e : JsError) : Bool := e.filterMsg

/-- The disjunction `isRateLimit || isFilterError`: the errors handled by rotation plus backoff. -/
def isTransient (e : JsError) : Bool := isRateLimit e || isFilterError e

/-- A concrete rate-limit error (e.g. `{code: -32016}`). -/
def rateLimitError : JsError := ⟨true, false, false, 1⟩

/-- A concrete expired-filter error (`'filter not found'`). -/
def filterExpiredError : JsError := ⟨false, false, true, 2⟩

/-- A concrete error that is neither a rate-limit nor a filter error. -/
def genericError : JsError := ⟨false, false, false, 3⟩

/-- The `RPC_ENDPOINTS` constant. -/
def RPC_ENDPOINTS : List String :=
  ["https://mainnet.base.org",
   "https://base.llamarpc.com",
   "https://base.drpc.org",
   "https://base.meowrpc.com"]

/-- The mutable instance state of `NGNUSDOracle` that the claims touch:
the endpoint pool with its current index (`rpcEndpoints`, `rpcIndex`) and the
subscription registry (`activeListeners`, the key set of the source's `Map`).
The provider/contract objects are determined by `rpcEndpoints[rpcIndex]` and
carry no further state of their own in this model. -/
structure OracleState where
  rpcEndpoints : List String
  rpcIndex : ℕ
  activeListeners : List String
deriving DecidableEq

/-- State right after the constructor: index 0, no listeners registered. -/
def initialOracle : OracleState := ⟨RPC_ENDPOINTS, 0, []⟩

/-- The method `rotateRPC()`: advances `rpcIndex` modulo the pool size.  The source also
tears down the transport-level listeners, rebuilds provider and contract, and
re-installs every registry entry on the new contract
(`reestablishEventListeners` re-adds exactly the saved entries), so the
registry itself is unchanged. -/
def rotateRPC (s : OracleState) : OracleState :=
  { s with rpcIndex := (s.rpcIndex + 1) % s.rpcEndpoints.length }

deriving instance DecidableEq for Except

/-- Observable outcome of one `executeWithRetry` call: the oracle state after
all rotations, the settled value (`.ok none` = resolved with `undefined`),
the number of invocations of `fn`, the number of `rotateRPC()` calls, and the
backoff delays awaited, in order. -/
structure RetryResult (α : Type) where
  state : OracleState
  result : Except JsError (Option α)
  attempts : ℕ
  rotations : ℕ
  delays : List ℕ
deriving DecidableEq

/-- The loop of `executeWithRetry(fn, retries)`.  `fn k` is the outcome of the
`k`-th invocation of `fn` (counted from 0).  The first argument is the number
of loop iterations still available (`retries - i`), so the guard
`i === retries - 1` of the source is `r = 0` here; falling off the loop end
returns `undefined` (`.ok none`). -/
def executeWithRetryGo (fn : ℕ → Except JsError α) :
    ℕ → ℕ → OracleState → ℕ → ℕ → List ℕ → RetryResult α
  | 0, _, s, att, rot, ds => ⟨s, .ok none, att, rot, ds⟩
  | r + 1, i, s, att, rot, ds =>
    match fn i with
    | .ok a => ⟨s, .ok (some a), att + 1, rot, ds⟩
    | .error e =>
      if isTransient e then
        executeWithRetryGo fn r (i + 1) (rotateRPC s) (att + 1) (rot + 1)
          (ds ++ [min (1000 * 2 ^ i) 10000])
      else if r = 0 then ⟨s, .error e, att + 1, rot, ds⟩
      else executeWithRetryGo fn r (i + 1) s (att + 1) rot ds

/-- The method `executeWithRetry(fn, retries = 3)` starting in oracle state `s`. -/
def executeWithRetry (fn : ℕ → Except JsError α) (retries : ℕ) (s : OracleState) :
    RetryResult α :=
  executeWithRetryGo fn retries 0 s 0 0 []

/-- A JS `Number` as produced by the quote arithmetic of this program: either
an exact rational value or the positive infinity produced by `1 / 0`.  (The
source's raw readings are integers scaled by a power of ten, so apart from
the division by zero every value that appears is exact.) -/
inductive JsNum where
  | fin : ℚ → JsNum
  | inf : JsNum
deriving DecidableEq

/-- The JS division `1 / x`: `Infinity` when `x` is zero. -/
def jsInv (x : ℚ) : JsNum := if x = 0 then .inf else .fin (1 / x)

/-- Left-pads the decimal digits of `n` with zeros to width `digits`. -/
def zeroPad (n digits : ℕ) : String :=
  let s := toString n
  ⟨List.replicate (digits - s.length) '0'⟩ ++ s

/-- The rendering `q.toFixed(digits)` for a rational `q`: rounds `q * 10^digits` to the
nearest integer, half toward positive infinity (the ECMAScript `toFixed`
tie-break), and renders it with exactly `digits` digits after the point. -/
def toFixedQ (q : ℚ) (digits : ℕ) : String :=
  let m : ℤ := ⌊q * (10 : ℚ) ^ digits + 1 / 2⌋
  let sign := if m < 0 then "-" else ""
  let n := m.natAbs
  sign ++ toString (n / 10 ^ digits) ++ "." ++ zeroPad (n % 10 ^ digits) digits

/-- The rendering `x.toFixed(digits)` for a JS number: `Infinity.toFixed` is `"Infinity"`. -/
def jsToFixed (x : JsNum) (digits : ℕ) : String :=
  match x with
  | .fin q => toFixedQ q digits
  | .inf => "Infinity"

/-- The record built by `getCurrentPrice()`, minus the wall-clock `timestamp`
field.  `usdToNgn` is `1 / ngnToUsd`, which is the JS `Infinity` when the raw
answer is zero, hence its `JsNum` type. -/
structure PriceData where
  ngnToUsd : ℚ
  usdToNgn : JsNum
  decimals : ℕ
  description : String
  formattedPrice : String
  reversePrice : String
deriving DecidableEq

/-- The computation of `getCurrentPrice()` after the serialization gate is
acquired, parameterized by the outcomes of its three provider interactions:
`decR` the `getDecimals()` call, `descR` the `getDescription()` call and
`ansR` the retried `latestAnswer()` call (each given here with a defined,
non-`undefined` success value; the `catch` of the source only re-throws).
A rejection of any of the three propagates; otherwise the record is built
unconditionally — the arithmetic itself contains no failure point, division
by zero included. -/
def getCurrentPriceCore (decR : Except JsError ℕ) (descR : Except JsError String)
    (ansR : Except JsError ℤ) : Except JsError PriceData :=
  match decR with
  | .error e => .error e
  | .ok decimals =>
    match descR with
    | .error e => .error e
    | .ok description =>
      match ansR with
      | .error e => .error e
      | .ok latestAnswer =>
        let ngnToUsd : ℚ := (latestAnswer : ℚ) / 10 ^ decimals
        let usdToNgn : JsNum := jsInv ngnToUsd
        .ok { ngnToUsd := ngnToUsd
              usdToNgn := usdToNgn
              decimals := decimals
              description := description
              formattedPrice := "1 USD = " ++ jsToFixed usdToNgn 2 ++ " NGN"
              reversePrice := "1 NGN = " ++ toFixedQ ngnToUsd 6 ++ " USD" }

/-- The tuple returned by the provider's `latestRoundData()`. -/
structure RoundDataIn where
  roundId : ℕ
  answer : ℤ
  startedAt : ℕ
  updatedAt : ℕ
  answeredInRound : ℕ
deriving DecidableEq

/-- The record built by `getLatestRoundData()`, minus `updatedAtFormatted`. -/
structure RoundRecord where
  roundId : String
  answer : ℤ
  ngnToUsd : ℚ
  usdToNgn : JsNum
  formattedPrice : String
  reversePrice : String
  startedAt : ℕ
  updatedAt : ℕ
  answeredInRound : String
deriving DecidableEq

/-- The computation of `getLatestRoundData()` after the gate is acquired,
parameterized by the outcomes of the `getDecimals()` call and of the retried
`latestRoundData()` call.  As in `getCurrentPriceCore`, only the provider
interactions can fail; the conversion arithmetic cannot. -/
def getLatestRoundDataCore (decR : Except JsError ℕ)
    (rdR : Except JsError RoundDataIn) : Except JsError RoundRecord :=
  match decR with
  | .error e => .error e
  | .ok decimals =>
    match rdR with
    | .error e => .error e
    | .ok roundData =>
      let ngnToUsd : ℚ := (roundData.answer : ℚ) / 10 ^ decimals
      let usdToNgn : JsNum := jsInv ngnToUsd
      .ok { roundId := toString roundData.roundId
            answer := roundData.answer
            ngnToUsd := ngnToUsd
            usdToNgn := usdToNgn
            formattedPrice := "1 USD = " ++ jsToFixed usdToNgn 2 ++ " NGN"
            reversePrice := "1 NGN = " ++ toFixedQ ngnToUsd 6 ++ " USD"
            startedAt := roundData.startedAt
            updatedAt := roundData.updatedAt
            answeredInRound := toString roundData.answeredInRound }

/-- The three states of a static-value cache field (`cachedDecimals`,
`cachedDescription`): the constructor's `null`, a stored `undefined` (the
value of a retry-exhausted fetch), or a stored result. -/
inductive CacheCell (α : Type) where
  | null : CacheCell α
  | undef : CacheCell α
  | val : α → CacheCell α
deriving DecidableEq

/-- Stores the settled value of a fetch: `undefined` or a proper value. -/
def CacheCell.ofOption (v : Option α) : CacheCell α :=
  match v with
  | none => .undef
  | some a => .val a

/-- Outcome of one `getDecimals()` / `getDescription()` call: the cache field
afterwards, the value the caller receives (`.ok none` = `undefined`), the
oracle state afterwards, and how many times the underlying provider fetch ran
during this call. -/
structure CachedGetResult (α : Type) where
  cache : CacheCell α
  result : Except JsError (Option α)
  state : OracleState
  calls : ℕ
deriving DecidableEq

/-- Common body of `getDecimals()` and `getDescription()`: the fetch (wrapped
in `executeWithRetry`) runs only when the field is strictly `null`
(`=== null`); a stored `undefined` does not match `=== null`, so it is
returned with no network call.  If the retried fetch rejects, the assignment
never runs and the field stays `null`. -/
def cachedGet (cache : CacheCell α) (fetch : ℕ → Except JsError α) (s : OracleState) :
    CachedGetResult α :=
  match cache with
  | .null =>
    let r := executeWithRetry fetch 3 s
    match r.result with
    | .error e => ⟨.null, .error e, r.state, r.attempts⟩
    | .ok v => ⟨.ofOption v, .ok v, r.state, r.attempts⟩
  | .undef => ⟨.undef, .ok none, s, 0⟩
  | .val a => ⟨.val a, .ok (some a), s, 0⟩

/-- The method `getDecimals()`: lazily caches `Number(await this.contract.decimals())`;
`fetch k` is the outcome of the `k`-th provider call of this invocation. -/
def getDecimals (cache : CacheCell ℕ) (fetch : ℕ → Except JsError ℕ)
    (s : OracleState) : CachedGetResult ℕ :=
  cachedGet cache fetch s

/-- The method `getDescription()`: lazily caches `await this.contract.description()`. -/
def getDescription (cache : CacheCell String) (fetch : ℕ → Except JsError String)
    (s : OracleState) : CachedGetResult String :=
  cachedGet cache fetch s

/-- A sequence of cache-reading calls, one per element of `fetches` (each
element says what the provider would answer during that call): final cache
field, the values received in order, and the total number of provider fetch
invocations across the whole sequence. -/
def cachedGetRuns (cache : CacheCell α) (fetches : List (ℕ → Except JsError α))
    (s : OracleState) : CacheCell α × List (Except JsError (Option α)) × ℕ :=
  match fetches with
  | [] => (cache, [], 0)
  | f :: fs =>
    let r := cachedGet cache f s
    let rest := cachedGetRuns r.cache fs r.state
    (rest.1, r.result :: rest.2.1, r.calls + rest.2.2)

/-- The method `setupEventListeners()`: the body that would install the `AnswerUpdated`
handler is commented out in the source; the method only prints
`'Event listeners disabled due to RPC filter limitations'` (returned here as
the second component) and changes nothing. -/
def setupEventListeners (s : OracleState) : OracleState × String :=
  (s, "Event listeners disabled due to RPC filter limitations")

/-- The batching loop of `queryHistoricalEvents`:
`for (let i = fromBlock; i <= currentBlock; i += batchSize)` pushes the
window `(i, Math.min(i + batchSize - 1, currentBlock))`.  The `ℕ` argument
is structural fuel bounding the iteration count; every use instantiates it
with more iterations than the loop can perform (for positive `batchSize`
the loop runs at most `blockRange / batchSize + 1 ≤ blockRange + 1` times,
and for `batchSize ≤ 0` the source loop would not terminate at all). -/
def batchLoop (batchSize currentBlock : ℤ) : ℕ → ℤ → List (ℤ × ℤ)
  | 0, _ => []
  | fuel + 1, i =>
    if i ≤ currentBlock then
      (i, min (i + batchSize - 1) currentBlock) ::
        batchLoop batchSize currentBlock fuel (i + batchSize)
    else []

/-- The list of windowed `queryFilter` ranges issued by
`queryHistoricalEvents(blockRange, batchSize)` when the current head block is
`currentBlock`: a single `[fromBlock, currentBlock]` query when
`blockRange <= batchSize`, else the batching loop starting at
`fromBlock = currentBlock - blockRange`. -/
def issuedWindows (currentBlock blockRange batchSize : ℤ) : List (ℤ × ℤ) :=
  if blockRange ≤ batchSize then [(currentBlock - blockRange, currentBlock)]
  else batchLoop batchSize currentBlock (blockRange.toNat + 1) (currentBlock - blockRange)

/-- A raw `AnswerUpdated` log entry as returned by `queryFilter`. -/
structure RawEvent where
  blockNumber : ℕ
  transactionHash : String
  roundId : ℕ
  current : ℤ
  updatedAt : ℕ
deriving DecidableEq

/-- The record `processEvents` builds per event, minus `updatedAtFormatted`. -/
structure HistRecord where
  blockNumber : ℕ
  transactionHash : String
  roundId : String
  ngnToUsd : ℚ
  usdToNgn : JsNum
  formattedPrice : String
  reversePrice : String
  updatedAt : ℕ
deriving DecidableEq

/-- The per-event body of the `events.map` inside `processEvents`. -/
def translateEvent (decimals : ℕ) (e : RawEvent) : HistRecord :=
  let ngnToUsd : ℚ := (e.current : ℚ) / 10 ^ decimals
  let usdToNgn := jsInv ngnToUsd
  ⟨e.blockNumber, e.transactionHash, toString e.roundId, ngnToUsd, usdToNgn,
   "1 USD = " ++ jsToFixed usdToNgn 2 ++ " NGN",
   "1 NGN = " ++ toFixedQ ngnToUsd 6 ++ " USD", e.updatedAt⟩

/-- The `TypeError` thrown by reading a property of `undefined`. -/
def typeErrorUndefined : JsError := ⟨false, false, false, 4⟩

/-- The helper `processEvents(events)` where the `events` array may contain `undefined`
entries (modelled as `none`): `event.args` on `undefined` throws a
`TypeError`, which rejects the whole `processEvents` promise; with no
`undefined` entry every element is mapped through the conversion.
`decimals` is the cached value `getDecimals()` resolves with. -/
def processEvents (decimals : ℕ) (events : List (Option RawEvent)) :
    Except JsError (List HistRecord) :=
  match List.mapM id events with
  | none => .error typeErrorUndefined
  | some l => .ok (l.map (translateEvent decimals))

/-- The `try`/`catch` around one batched window: a rejection of the retried
query is caught (logged) and becomes `[]`; a resolution — including the
`undefined` of a transiently exhausted retry, which the `catch` never sees —
passes through unchanged. -/
def catchWindow (r : Except JsError (Option (List RawEvent))) : Option (List RawEvent) :=
  match r with
  | .error _ => some []
  | .ok v => v

/-- The call `batchResults.flat()`: array elements are spliced; an `undefined` left by
a transiently exhausted window is kept as an element (`flat` drops only
holes of sparse arrays, not `undefined` values). -/
def jsFlat (xs : List (Option (List RawEvent))) : List (Option RawEvent) :=
  xs.flatMap fun x =>
    match x with
    | some l => l.map some
    | none => [none]

/-- Runs the batched windows in order (the `p-limit(1)` gate serializes
them), threading the oracle state through each window's `executeWithRetry`;
`winFn w k` is the outcome of the `k`-th attempt of window `w`'s
`queryFilter`.  Returns the final state and each window's contribution. -/
def runWindows (winFn : ℤ × ℤ → ℕ → Except JsError (List RawEvent)) :
    OracleState → List (ℤ × ℤ) → OracleState × List (Option (List RawEvent))
  | s, [] => (s, [])
  | s, w :: ws =>
    let r := executeWithRetry (winFn w) 3 s
    let rest := runWindows winFn r.state ws
    (rest.1, catchWindow r.result :: rest.2)

/-- The method `queryHistoricalEvents(blockRange, batchSize)` given the head block
(`currentBlock`, the value the retried `getBlockNumber()` resolved with),
the cached `decimals`, and `winFn` describing each windowed `queryFilter`'s
attempt outcomes.  In both paths the final `return this.processEvents(...)`
returns the promise without awaiting it, so a rejection of `processEvents` —
the `TypeError` caused by an `undefined` contribution — escapes the
surrounding `try`/`catch` and rejects the whole call, while a rejection of
the single-window query itself is awaited inside the `try` and the outer
`catch` turns it into `[]`. -/
def queryHistoricalEvents (decimals : ℕ) (currentBlock blockRange batchSize : ℤ)
    (winFn : ℤ × ℤ → ℕ → Except JsError (List RawEvent)) (s : OracleState) :
    Except JsError (List HistRecord) :=
  let fromBlock := currentBlock - blockRange
  if blockRange ≤ batchSize then
    match (executeWithRetry (winFn (fromBlock, currentBlock)) 3 s).result with
    | .error _ => .ok []
    | .ok none => .error typeErrorUndefined
    | .ok (some evs) => processEvents decimals (evs.map some)
  else
    let contrib :=
      runWindows winFn s (batchLoop batchSize currentBlock (blockRange.toNat + 1) fromBlock)
    processEvents decimals (jsFlat contrib.2)

/-- An event in the first window of the C6 scenario. -/
def evA : RawEvent := ⟨881, "0xa", 11, 700, 100⟩

/-- An event in the last window of the C6 scenario. -/
def evB : RawEvent := ⟨981, "0xb", 12, 700, 200⟩

/-- Window behaviour: the middle window `[930, 979]` always hits the rate
limit; the first window returns `evA`, the last returns `evB`. -/
def winFnTransient (w : ℤ × ℤ) (_ : ℕ) : Except JsError (List RawEvent) :=
  if w.1 = 930 then .error rateLimitError
  else if w.1 = 880 then .ok [evA]
  else .ok [evB]

/-- Window behaviour: the middle window always fails with a non-transient
error; the first window returns `evA`, the last returns `evB`. -/
def winFnGeneric (w : ℤ × ℤ) (_ : ℕ) : Except JsError (List RawEvent) :=
  if w.1 = 930 then .error genericError
  else if w.1 = 880 then .ok [evA]
  else .ok [evB]

/-- The outcome `monitorPrice` observably produces: whether the repeating
interval got installed, and for each scheduled tick whether its poll
succeeded (`true`) or failed and was caught and logged (`false`). -/
structure MonitorOutcome where
  intervalInstalled : Bool
  tickResults : List Bool
deriving DecidableEq

/-- One scheduled tick of the `setInterval` callback: its `try`/`catch`
turns a failing `displayCurrentPrice()` into a logged `false`; nothing is
re-thrown and the interval is never cleared. -/
def monitorTick (poll : Except JsError Unit) : Bool :=
  match poll with
  | .ok _ => true
  | .error _ => false

/-- The method `monitorPrice(intervalMs)`: one immediate
`await this.displayCurrentPrice()` — not inside any `try` — and only then
the installation of the repeating schedule whose ticks are individually
guarded.  `firstPoll` is the outcome of the immediate poll, `ticks` those of
the scheduled polls in order. -/
def monitorPrice (firstPoll : Except JsError Unit)
    (ticks : List (Except JsError Unit)) : Except JsError MonitorOutcome :=
  match firstPoll with
  | .error e => .error e
  | .ok _ => .ok ⟨true, ticks.map monitorTick⟩

/-- Claim C1, evaluation at the failing input: for an operation that raises a
rate-limit error on every attempt, `executeWithRetry` with `retries = 3`
invokes the operation exactly 3 times — but it rotates the endpoint pool
three times (after every attempt, the final one included), waits backoff
delays of 1000ms, 2000ms and then 4000ms, and finally resolves with
`undefined` (`.ok none`) instead of propagating the last observed error:
after the third transient failure the loop rotates, waits, and falls off its
end without ever reaching the `throw`. -/
theorem executeWithRetry_allTransient_eval :
    executeWithRetry (fun _ => (.error rateLimitError : Except JsError ℕ)) 3 initialOracle =
      ⟨{ initialOracle with rpcIndex := 3 }, .ok none, 3, 3, [1000, 2000, 4000]⟩ := by
  decide

example :
    executeWithRetry (fun _ => (.error genericError : Except JsError ℕ)) 3 initialOracle =
      ⟨initialOracle, .error genericError, 3, 0, []⟩ := by
  decide

example :
    executeWithRetry (fun k => if k = 0 then (.error rateLimitError : Except JsError ℕ)
      else .ok 7) 3 initialOracle =
      ⟨{ initialOracle with rpcIndex := 1 }, .ok (some 7), 2, 1, [1000]⟩ := by
  decide

/-- Unfolds `toFixedQ` once the rounded integer `m` is known; the remaining
right-hand side is integer/string computation. -/
theorem toFixedQ_of_floor (q : ℚ) (d : ℕ) (m : ℤ) (hm : ⌊q * (10 : ℚ) ^ d + 1 / 2⌋ = m) :
    toFixedQ q d =
      (if m < 0 then "-" else "") ++ toString (m.natAbs / 10 ^ d) ++ "." ++
        zeroPad (m.natAbs % 10 ^ d) d := by
  unfold toFixedQ
  rw [hm]

example : toFixedQ (689 / 1000000) 6 = "0.000689" := by
  rw [toFixedQ_of_floor _ _ 689 (by norm_num)]
  decide

example : toFixedQ (1000000 / 689) 2 = "1451.38" := by
  rw [toFixedQ_of_floor _ _ 145138 (by norm_num)]
  decide

example : toFixedQ 0 6 = "0.000000" := by
  rw [toFixedQ_of_floor _ _ 0 (by norm_num)]
  decide

/-- Success-path evaluation of `getCurrentPriceCore`. -/
theorem getCurrentPriceCore_ok (d : ℕ) (desc : String) (a : ℤ) :
    getCurrentPriceCore (.ok d) (.ok desc) (.ok a) =
      .ok ⟨(a : ℚ) / 10 ^ d, jsInv ((a : ℚ) / 10 ^ d), d, desc,
           "1 USD = " ++ jsToFixed (jsInv ((a : ℚ) / 10 ^ d)) 2 ++ " NGN",
           "1 NGN = " ++ toFixedQ ((a : ℚ) / 10 ^ d) 6 ++ " USD"⟩ := rfl

/-- Success-path evaluation of `getLatestRoundDataCore`. -/
theorem getLatestRoundDataCore_ok (d : ℕ) (rd : RoundDataIn) :
    getLatestRoundDataCore (.ok d) (.ok rd) =
      .ok ⟨toString rd.roundId, rd.answer, (rd.answer : ℚ) / 10 ^ d,
           jsInv ((rd.answer : ℚ) / 10 ^ d),
           "1 USD = " ++ jsToFixed (jsInv ((rd.answer : ℚ) / 10 ^ d)) 2 ++ " NGN",
           "1 NGN = " ++ toFixedQ ((rd.answer : ℚ) / 10 ^ d) 6 ++ " USD",
           rd.startedAt, rd.updatedAt, toString rd.answeredInRound⟩ := rfl

/-- Claim C4, counterexample: with a raw answer of exactly zero the code does
not fail at all — `getCurrentPrice` and `getLatestRoundData` both succeed,
returning the JS `Infinity` sentinel as `usdToNgn`, so no
`DivideByZero`/`InvalidRate` error distinguishable from transport errors is
ever raised. -/
theorem zeroAnswer_succeeds_counterexample :
    (getCurrentPriceCore (.ok 6) (.ok "NGN / USD") (.ok 0)).map PriceData.usdToNgn =
      .ok .inf ∧
    (getLatestRoundDataCore (.ok 6) (.ok ⟨1, 0, 5, 5, 1⟩)).map RoundRecord.usdToNgn =
      .ok .inf := by
  rw [getCurrentPriceCore_ok, getLatestRoundDataCore_ok]
  constructor <;> · simp [jsInv, Except.map]

/-- Claim C4 (amended): the conversion arithmetic of `getCurrentPrice` and
`getLatestRoundData` contains no failure point: whenever the provider
interactions succeed the call succeeds, for every raw answer including zero.
A zero raw answer makes `ngnToUsd` zero and yields the JS `Infinity` sentinel
as `usdToNgn` instead of a distinct arithmetic error; the only errors either
function surfaces are the transport errors of the underlying fetches. -/
theorem price_zero_infinity_sentinel (d : ℕ) (desc : String) (a : ℤ) (rd : RoundDataIn) :
    (∃ p, getCurrentPriceCore (.ok d) (.ok desc) (.ok a) = .ok p) ∧
    (∃ r, getLatestRoundDataCore (.ok d) (.ok rd) = .ok r) ∧
    (a = 0 →
      (getCurrentPriceCore (.ok d) (.ok desc) (.ok a)).map PriceData.usdToNgn =
        .ok .inf) ∧
    (rd.answer = 0 →
      (getLatestRoundDataCore (.ok d) (.ok rd)).map RoundRecord.usdToNgn =
        .ok .inf) := by
  refine ⟨⟨_, rfl⟩, ⟨_, rfl⟩, fun ha => ?_, fun ha => ?_⟩
  · subst ha
    rw [getCurrentPriceCore_ok]
    simp [jsInv, Except.map]
  · rw [getLatestRoundDataCore_ok, ha]
    simp [jsInv, Except.map]

/-- Witness for `price_zero_infinity_sentinel` at `decimals = 6` and raw
answer `0`. -/
theorem price_zero_infinity_sentinel_witness :
    (getCurrentPriceCore (.ok 6) (.ok "NGN / USD") (.ok 0)).map PriceData.usdToNgn =
      .ok .inf ∧
    (getLatestRoundDataCore (.ok 6) (.ok ⟨2, 0, 5, 5, 2⟩)).map RoundRecord.usdToNgn =
      .ok .inf :=
  ⟨(price_zero_infinity_sentinel 6 "NGN / USD" 0 ⟨2, 0, 5, 5, 2⟩).2.2.1 rfl,
   (price_zero_infinity_sentinel 6 "NGN / USD" 0 ⟨2, 0, 5, 5, 2⟩).2.2.2 rfl⟩

/-- The cast form of the 689 example rate, as it appears after evaluation. -/
theorem rate689_cast : ((689 : ℤ) : ℚ) / 10 ^ 6 = 689 / 1000000 := by norm_num

/-- The reciprocal of the 689 example rate. -/
theorem rate689_inv : jsInv (689 / 1000000) = .fin (1000000 / 689) := by
  rw [jsInv, if_neg (by norm_num)]
  norm_num

/-- The 2-decimal rendering of the direct rate of the 689 example. -/
theorem rate689_direct_fixed : jsToFixed (.fin (1000000 / 689)) 2 = "1451.38" := by
  show toFixedQ (1000000 / 689) 2 = "1451.38"
  rw [toFixedQ_of_floor _ _ 145138 (by norm_num)]
  decide

/-- The 6-decimal rendering of the inverse rate of the 689 example. -/
theorem rate689_inverse_fixed : toFixedQ (689 / 1000000) 6 = "0.000689" := by
  rw [toFixedQ_of_floor _ _ 689 (by norm_num)]
  decide

/-- Claim C5, counterexample: with `decimals = 6` and `latest_answer = 689`
the code formats the direct rate as `"1 USD = 1451.38 NGN"` — because
`1 / 0.000689 = 1451.3788...` — and not as the claimed
`"1 USD = 1450.65 NGN"`. -/
theorem price689_formatted_counterexample :
    (getCurrentPriceCore (.ok 6) (.ok "NGN / USD") (.ok 689)).map PriceData.formattedPrice =
      .ok "1 USD = 1451.38 NGN" ∧
    ("1 USD = 1451.38 NGN" : String) ≠ "1 USD = 1450.65 NGN" := by
  constructor
  · rw [getCurrentPriceCore_ok, rate689_cast, rate689_inv]
    simp only [Except.map, rate689_direct_fixed]
    rfl
  · decide

/-- Claim C5 (amended): with `decimals = 6` and `latest_answer = 689`,
`getCurrentPrice` returns the inverse rate `ngnToUsd = 0.000689`, the direct
rate `usdToNgn = 1000000/689 ≈ 1451.38` (not `1450.65`), and the formatted
strings `"1 USD = 1451.38 NGN"` and `"1 NGN = 0.000689 USD"`. -/
theorem price689_example_eval :
    getCurrentPriceCore (.ok 6) (.ok "NGN / USD") (.ok 689) =
      .ok ⟨689 / 1000000, .fin (1000000 / 689), 6, "NGN / USD",
           "1 USD = 1451.38 NGN", "1 NGN = 0.000689 USD"⟩ ∧
    (145137 : ℚ) / 100 < 1000000 / 689 ∧ (1000000 : ℚ) / 689 < 145139 / 100 := by
  refine ⟨?_, by norm_num, by norm_num⟩
  rw [getCurrentPriceCore_ok, rate689_cast, rate689_inv, rate689_direct_fixed,
    rate689_inverse_fixed]
  rfl

/-- For an operation whose first three invocations all raise transient
errors, `executeWithRetry(fn, 3)` rotates three times, waits 1000ms, 2000ms
and 4000ms, invokes the operation exactly 3 times, and resolves with
`undefined`. -/
theorem executeWithRetry_allTransient (fn : ℕ → Except JsError α) (s : OracleState)
    (h : ∀ k, k < 3 → ∃ e, fn k = .error e ∧ isTransient e = true) :
    executeWithRetry fn 3 s =
      ⟨rotateRPC (rotateRPC (rotateRPC s)), .ok none, 3, 3, [1000, 2000, 4000]⟩ := by
  obtain ⟨e0, he0, ht0⟩ := h 0 (by norm_num)
  obtain ⟨e1, he1, ht1⟩ := h 1 (by norm_num)
  obtain ⟨e2, he2, ht2⟩ := h 2 (by norm_num)
  simp only [executeWithRetry]
  rw [show (3 : ℕ) = 2 + 1 from rfl, executeWithRetryGo]
  simp only [he0]
  rw [if_pos ht0, show (2 : ℕ) = 1 + 1 from rfl, executeWithRetryGo]
  simp only [he1]
  rw [if_pos ht1, show (1 : ℕ) = 0 + 1 from rfl, executeWithRetryGo]
  simp only [he2]
  rw [if_pos ht2, executeWithRetryGo]
  norm_num

/-- Starting from a populated cache field, any sequence of further calls
returns the stored value every time, performs zero fetch invocations in
total, and leaves the field unchanged. -/
theorem cachedGetRuns_val (a : α) (fs : List (ℕ → Except JsError α)) (s : OracleState) :
    cachedGetRuns (.val a) fs s = (.val a, fs.map fun _ => .ok (some a), 0) := by
  induction fs generalizing s with
  | nil => rfl
  | cons f fs ih => simp [cachedGetRuns, cachedGet, ih]

/-- Claim C7: for each static key (decimals, description), once the key holds
a cached value every subsequent get call returns that value with no fetch
invocation — across any number of calls the fetcher runs zero further times
and the cached value is never overwritten. -/
theorem cachedValue_never_refetched (n : ℕ) (str : String)
    (fetches : List (ℕ → Except JsError ℕ))
    (dfetches : List (ℕ → Except JsError String)) (s s2 : OracleState) :
    cachedGetRuns (.val n) fetches s = (.val n, fetches.map fun _ => .ok (some n), 0) ∧
    cachedGetRuns (.val str) dfetches s2 =
      (.val str, dfetches.map fun _ => .ok (some str), 0) :=
  ⟨cachedGetRuns_val n fetches s, cachedGetRuns_val str dfetches s2⟩

/-- Claim C10: if the first fetch of a static value fails on every attempt
with a transient error, the retried fetch resolves with `undefined` (it does
not reject), that `undefined` is stored in the cache field, and every
subsequent `getDecimals`/`getDescription` call returns `undefined` with zero
further fetch invocations. -/
theorem staticFetch_transient_poisons_cache
    (fetch : ℕ → Except JsError ℕ) (dfetch : ℕ → Except JsError String)
    (s s2 : OracleState)
    (h : ∀ k, k < 3 → ∃ e, fetch k = .error e ∧ isTransient e = true)
    (hd : ∀ k, k < 3 → ∃ e, dfetch k = .error e ∧ isTransient e = true) :
    getDecimals .null fetch s =
      ⟨.undef, .ok none, rotateRPC (rotateRPC (rotateRPC s)), 3⟩ ∧
    getDescription .null dfetch s2 =
      ⟨.undef, .ok none, rotateRPC (rotateRPC (rotateRPC s2)), 3⟩ ∧
    (∀ (f : ℕ → Except JsError ℕ) (s3 : OracleState),
      getDecimals .undef f s3 = ⟨.undef, .ok none, s3, 0⟩) ∧
    (∀ (f : ℕ → Except JsError String) (s3 : OracleState),
      getDescription .undef f s3 = ⟨.undef, .ok none, s3, 0⟩) := by
  refine ⟨?_, ?_, fun f s3 => rfl, fun f s3 => rfl⟩
  · simp only [getDecimals, cachedGet, executeWithRetry_allTransient fetch s h,
      CacheCell.ofOption]
  · simp only [getDescription, cachedGet, executeWithRetry_allTransient dfetch s2 hd,
      CacheCell.ofOption]

/-- Witness for `staticFetch_transient_poisons_cache` with a fetch that
always hits the rate limit and one that always hits an expired filter. -/
theorem staticFetch_transient_poisons_cache_witness :
    getDecimals .null (fun _ => .error rateLimitError) initialOracle =
      ⟨.undef, .ok none, rotateRPC (rotateRPC (rotateRPC initialOracle)), 3⟩ ∧
    getDescription .null (fun _ => .error filterExpiredError) initialOracle =
      ⟨.undef, .ok none, rotateRPC (rotateRPC (rotateRPC initialOracle)), 3⟩ ∧
    getDecimals .undef (fun _ => .ok 6) initialOracle =
      ⟨.undef, .ok none, initialOracle, 0⟩ ∧
    getDescription .undef (fun _ => .ok "NGN / USD") initialOracle =
      ⟨.undef, .ok none, initialOracle, 0⟩ := by
  have H := staticFetch_transient_poisons_cache (fun _ => .error rateLimitError)
    (fun _ => .error filterExpiredError) initialOracle initialOracle
    (fun k _ => ⟨rateLimitError, rfl, rfl⟩) (fun k _ => ⟨filterExpiredError, rfl, rfl⟩)
  exact ⟨H.1, H.2.1, H.2.2.1 (fun _ => .ok 6) initialOracle,
    H.2.2.2 (fun _ => .ok "NGN / USD") initialOracle⟩

/-- Iterated rotation adds `k` to the index modulo the pool size and leaves
the pool itself unchanged. -/
theorem rotateRPC_iterate (k : ℕ) (s : OracleState)
    (h : s.rpcIndex < s.rpcEndpoints.length) :
    (rotateRPC^[k] s).rpcIndex = (s.rpcIndex + k) % s.rpcEndpoints.length ∧
    (rotateRPC^[k] s).rpcEndpoints = s.rpcEndpoints := by
  induction k with
  | zero =>
    constructor
    · simp [Nat.mod_eq_of_lt h]
    · simp
  | succ k ih =>
    obtain ⟨hi, he⟩ := ih
    rw [Function.iterate_succ_apply']
    refine ⟨?_, he⟩
    show ((rotateRPC^[k] s).rpcIndex + 1) % (rotateRPC^[k] s).rpcEndpoints.length = _
    rw [hi, he, Nat.mod_add_mod, Nat.add_assoc]

/-- Claim C8: `rotateRPC()` advances the current endpoint index by exactly
one modulo the pool size, the index remains a valid position in the pool,
and for a pool of size N, N consecutive rotations return the index to its
starting value — rotation is a pure cyclic permutation. -/
theorem rotateRPC_cyclic (s : OracleState) (h : s.rpcIndex < s.rpcEndpoints.length) :
    (rotateRPC s).rpcIndex = (s.rpcIndex + 1) % s.rpcEndpoints.length ∧
    (rotateRPC s).rpcIndex < s.rpcEndpoints.length ∧
    (rotateRPC^[s.rpcEndpoints.length] s).rpcIndex = s.rpcIndex := by
  have hlen : 0 < s.rpcEndpoints.length := Nat.lt_of_le_of_lt (Nat.zero_le _) h
  refine ⟨rfl, Nat.mod_lt _ hlen, ?_⟩
  rw [(rotateRPC_iterate s.rpcEndpoints.length s h).1, Nat.add_mod_right]
  exact Nat.mod_eq_of_lt h

/-- Witness for `rotateRPC_cyclic` on the freshly constructed oracle with its
pool of 4 endpoints. -/
theorem rotateRPC_cyclic_witness :
    (rotateRPC initialOracle).rpcIndex =
      (initialOracle.rpcIndex + 1) % initialOracle.rpcEndpoints.length ∧
    (rotateRPC initialOracle).rpcIndex < initialOracle.rpcEndpoints.length ∧
    (rotateRPC^[initialOracle.rpcEndpoints.length] initialOracle).rpcIndex =
      initialOracle.rpcIndex :=
  rotateRPC_cyclic initialOracle (by decide)

/-- Claim C2, counterexample: after `setupEventListeners()` returns on the
freshly constructed oracle, the subscription registry contains no
`AnswerUpdated` entry — the desired push subscription is not installed. -/
theorem setupEventListeners_no_subscription_counterexample :
    "AnswerUpdated" ∉ (setupEventListeners initialOracle).1.activeListeners := by
  decide

/-- Claim C2 (amended): `setupEventListeners()` installs nothing — it only
logs that event listeners are disabled and leaves the oracle state, the
subscription registry included, completely unchanged. -/
theorem setupEventListeners_noop (s : OracleState) :
    (setupEventListeners s).1 = s ∧
    (setupEventListeners s).2 =
      "Event listeners disabled due to RPC filter limitations" :=
  ⟨rfl, rfl⟩

/-- Unfolds one iteration of the batching loop while it has fuel and the
cursor has not passed the head block. -/
theorem batchLoop_pos (bs cb : ℤ) (fuel : ℕ) (i : ℤ) (hf : 0 < fuel) (h : i ≤ cb) :
    batchLoop bs cb fuel i =
      (i, min (i + bs - 1) cb) :: batchLoop bs cb (fuel - 1) (i + bs) := by
  cases fuel with
  | zero => exact absurd hf (by omega)
  | succ f => simp [batchLoop, h]

/-- The batching loop stops as soon as the cursor passes the head block. -/
theorem batchLoop_stop (bs cb : ℤ) (fuel : ℕ) (i : ℤ) (h : ¬ i ≤ cb) :
    batchLoop bs cb fuel i = [] := by
  cases fuel with
  | zero => rfl
  | succ f => simp [batchLoop, h]

/-- Claim C3: for every current head block `H`, `queryHistoricalEvents` with
`blockRange = 120` and `batchSize = 50` computes `fromBlock = H - 120` and
issues exactly 3 windowed queries with boundaries `[H-120, H-71]`,
`[H-70, H-21]`, `[H-20, H]` — non-overlapping, covering the full range, the
last truncated to the head — and whenever `blockRange ≤ batchSize` it issues
exactly the one windowed query `[H - blockRange, H]`. -/
theorem issuedWindows_spec (H : ℤ) :
    issuedWindows H 120 50 = [(H - 120, H - 71), (H - 70, H - 21), (H - 20, H)] ∧
    ∀ blockRange batchSize : ℤ, blockRange ≤ batchSize →
      issuedWindows H blockRange batchSize = [(H - blockRange, H)] := by
  constructor
  · rw [issuedWindows, if_neg (by norm_num)]
    rw [batchLoop_pos _ _ _ _ (by omega) (by omega)]
    rw [batchLoop_pos _ _ _ _ (by omega) (by omega)]
    rw [batchLoop_pos _ _ _ _ (by omega) (by omega)]
    rw [batchLoop_stop _ _ _ _ (by omega)]
    simp only [List.cons.injEq, Prod.mk.injEq, and_true, true_and, min_def]
    split_ifs <;> omega
  · intro blockRange batchSize hle
    rw [issuedWindows, if_pos hle]

/-- Witness for `issuedWindows_spec` at head block 1000 (and, for the
single-window part, `blockRange = 30 ≤ batchSize = 50`). -/
theorem issuedWindows_spec_witness :
    issuedWindows 1000 120 50 = [(880, 929), (930, 979), (980, 1000)] ∧
    issuedWindows 1000 30 50 = [(970, 1000)] := by
  constructor
  · have h := (issuedWindows_spec 1000).1
    norm_num at h
    exact h
  · have h := (issuedWindows_spec 1000).2 30 50 (by norm_num)
    norm_num at h
    exact h

/-- Claim C6, evaluation at the failing input: in the batched query with
head 1000, `blockRange = 120`, `batchSize = 50`, a middle window that
exhausts its retries on rate-limit errors does not contribute an empty
result — its retry resolves `undefined`, which survives `flat()` and makes
`processEvents` reject, so the whole call fails with a `TypeError` and the
other windows' records are lost.  Only a window that exhausts its retries by
throwing a non-transient error is caught and contributes `[]`, the call then
returning the other windows' records in window order. -/
theorem queryHistoricalEvents_window_failure_eval :
    queryHistoricalEvents 6 1000 120 50 winFnTransient initialOracle =
      .error typeErrorUndefined ∧
    queryHistoricalEvents 6 1000 120 50 winFnGeneric initialOracle =
      .ok [translateEvent 6 evA, translateEvent 6 evB] := by
  constructor <;> rfl

/-- Claim C9, counterexample: when the immediate first polling cycle fails,
`monitorPrice` propagates that error to its caller and the repeating
schedule is never installed — the first cycle's failure is not caught. -/
theorem monitorPrice_first_cycle_counterexample :
    monitorPrice (.error genericError) [.ok (), .ok ()] = .error genericError := rfl

/-- Claim C9 (amended): every cycle executed by the repeating schedule
catches and logs its own failure without cancelling future cycles — all
scheduled ticks run whatever each one's outcome — and `monitorPrice` itself
succeeds; but the immediate first cycle, executed before the schedule is
installed, is unprotected: its failure propagates to the caller of
`monitorPrice` and the repeating schedule is never installed. -/
theorem monitorPrice_scheduled_cycles_guarded
    (ticks : List (Except JsError Unit)) (e : JsError) :
    monitorPrice (.ok ()) ticks = .ok ⟨true, ticks.map monitorTick⟩ ∧
    (ticks.map monitorTick).length = ticks.length ∧
    monitorPrice (.error e) ticks = .error e :=
  ⟨rfl, by simp, rfl⟩
